import Mathlib

/-!
Verification development for the CompanyResearch web front-end (`src/app.py`).

The program is a small relay: an HTML form renderer (`render`) built by
placeholder substitution over a fixed template (`HTML`), and an agent relay
(`call_agent`) that performs a fixed sequence of remote calls and converts
every failure into a displayable string.

Strings are modelled as `List Char` (`Str`).  Python's `str.replace` is
modelled by `replaceAll` (leftmost, non-overlapping, the replacement text is
not rescanned), Python's `str.strip` by `pyStrip`, and `"sep".join` by
`pyJoin`.  The remote agent service is modelled as an explicit environment
(`Env`) whose operations may raise (`Except`); the relay's observable side
effects are recorded as an event trace.

The `HTML` template is the verbatim module-level template of `app.py`,
written as a concatenation of segment literals split at the two placeholder
occurrences (and the long head segment split further so that every literal
stays small enough for kernel evaluation); braces are written `\x7b`/`\x7d`.
-/

set_option maxRecDepth 4000

/-- Python strings are modelled as lists of characters. -/
abbrev Str := List Char

deriving instance DecidableEq for Except

/-- Whitespace characters stripped by Python's `str.strip()` (ASCII range). -/
def pyIsSpace (c : Char) : Bool :=
  c = ' ' || c = '\t' || c = '\n' || c = '\r' || c = '\x0b' || c = '\x0c'

/-- Python `s.strip()`: drop leading and trailing whitespace. -/
def pyStrip (s : Str) : Str :=
  ((s.dropWhile pyIsSpace).reverse.dropWhile pyIsSpace).reverse

/-- Python `sep.join(xs)`. -/
def pyJoin (sep : Str) (xs : List Str) : Str :=
  List.intercalate sep xs

/-- Fuel-driven worker for `replaceAll`.  The fuel only bounds the number of
scanning steps; `replaceAll` always supplies enough fuel. -/
def replaceFuel (pat rep : Str) : Nat → Str → Str
  | _, [] => []
  | 0, s => s
  | fuel + 1, c :: rest =>
    if List.take pat.length (c :: rest) = pat then
      rep ++ replaceFuel pat rep fuel (List.drop (pat.length - 1) rest)
    else
      c :: replaceFuel pat rep fuel rest

/-- Python `s.replace(pat, rep)` for a non-empty `pat`: scan left to right,
replace each non-overlapping occurrence, never rescan the inserted
replacement.  (The program only ever calls `replace` with non-empty
patterns; for `pat = []` we return `s` unchanged.) -/
def replaceAll (pat rep s : Str) : Str :=
  if pat = [] then s else replaceFuel pat rep s.length s

/-- Number of start positions of `s` at which `pat` occurs as a contiguous
substring (overlapping occurrences all counted). -/
def countOccs (pat : Str) : Str → Nat
  | [] => if pat = [] then 1 else 0
  | c :: rest => (if List.take pat.length (c :: rest) = pat then 1 else 0) + countOccs pat rest

/-- The escaping chain used twice in `render`:
`.replace("&", "&amp;").replace("<", "&lt;").replace(">", "&gt;")`,
in that order. -/
def escapeHtml (s : Str) : Str :=
  replaceAll (">".toList) ("&gt;".toList)
    (replaceAll ("<".toList) ("&lt;".toList)
      (replaceAll ("&".toList) ("&amp;".toList) s))

/-- `HTML` segment: document head and the first style blocks. -/
def html_pre1 : Str :=
  ("\n<!DOCTYPE html>\n<html>\n<head>\n  <meta charset=\"utf-8\" />\n  <title>Leadership Change Assistant</title>\n  <style>\n    body \x7b\n      font-family: system-ui, -apple-system, BlinkMacSystemFont, sans-serif;\n      max-width: 900px;\n      margin: 40px auto;\n      padding: 0 16px 40px;\n      background: #fafafa;\n    \x7d\n    h1 \x7b\n      font-size: 26px;\n      margin-bottom: 4px;\n    \x7d\n    .subtitle \x7b\n      color: #666;\n      margin-bottom: 20px;\n      font-size: 14px;\n    \x7d\n    form \x7b\n      background: #ffffff;\n      padding: 16px;\n      border-radius: 12px;\n      box-shadow: 0 4px 12px rgba(0,0,0,0.03);\n      margin-bottom: 16px;\n    \x7d\n").toList

/-- `HTML` segment: remaining style blocks. -/
def html_pre2 : Str :=
  ("    textarea \x7b\n      width: 100%;\n      min-height: 90px;\n      padding: 10px;\n      font-family: inherit;\n      font-size: 14px;\n      border-radius: 8px;\n      border: 1px solid #ddd;\n      box-sizing: border-box;\n      resize: vertical;\n    \x7d\n    button \x7b\n      margin-top: 10px;\n      padding: 8px 18px;\n      cursor: pointer;\n      border-radius: 999px;\n      border: none;\n      font-size: 14px;\n      background: #111827;\n      color: #fff;\n    \x7d\n    button:hover \x7b\n      background: #111827ee;\n    \x7d\n    .answer \x7b\n      margin-top: 12px;\n      padding: 14px;\n      border-radius: 12px;\n      background: #f3f4f6;\n      white-space: pre-wrap;\n      font-size: 14px;\n      line-height: 1.5;\n    \x7d\n").toList

/-- `HTML` segment: last style blocks and the document body up to (and
including) the `required>` that precedes the `message` placeholder. -/
def html_pre3 : Str :=
  ("    .label \x7b\n      font-weight: 600;\n      margin-bottom: 6px;\n      display:block;\n      font-size: 14px;\n    \x7d\n    .hint \x7b\n      font-size: 12px;\n      color: #888;\n      margin-top: 4px;\n    \x7d\n  </style>\n</head>\n<body>\n  <h1>Leadership Change Assistant</h1>\n  <div class=\"subtitle\">\n    Query executive & director leadership changes (e.g. 8-K Item 5.02 events) across tracked companies.\n    Try: <code>Show me leadership changes for Apple in 2025.</code>\n  </div>\n\n  <form method=\"post\" action=\"/chat\">\n    <label for=\"message\" class=\"label\">Your question</label>\n    <textarea id=\"message\" name=\"message\" required>").toList

/-- The `\x7b\x7bmessage\x7d\x7d` placeholder. -/
def message_placeholder : Str := "\x7b\x7bmessage\x7d\x7d".toList

/-- The `\x7b\x7banswer_block\x7d\x7d` placeholder. -/
def answer_placeholder : Str := "\x7b\x7banswer_block\x7d\x7d".toList

/-- `HTML` segment between the two placeholders. -/
def html_mid : Str :=
  ("</textarea>\n    <div class=\"hint\">\n      The agent will search recent filings and summarize relevant leadership moves.\n    </div>\n    <button type=\"submit\">Ask</button>\n  </form>\n\n  ").toList

/-- `HTML` segment after the `answer_block` placeholder. -/
def html_post : Str := "\n</body>\n</html>\n".toList

/-- The module-level `HTML` template of `app.py`. -/
def HTML : Str :=
  html_pre1 ++ html_pre2 ++ html_pre3 ++ message_placeholder ++ html_mid ++
    answer_placeholder ++ html_post

/-- Opening part of the answer block built in `render`
(`'<div class="answer">' '<strong>Answer</strong><br/>'`). -/
def answer_div_open : Str := "<div class=\"answer\"><strong>Answer</strong><br/>".toList

/-- Closing part of the answer block built in `render`. -/
def answer_div_close : Str := "</div>".toList

/-- Opening tag of the editable field (the form's textarea); `html_pre3`
ends with it. -/
def textarea_open : Str :=
  "<textarea id=\"message\" name=\"message\" required>".toList

/-- Closing tag of the editable field; `html_mid` starts with it. -/
def textarea_close : Str := "</textarea>".toList

/-- The answer block `render` builds for a non-empty `answer`. -/
def answer_block_of (answer : Str) : Str :=
  answer_div_open ++ escapeHtml answer ++ answer_div_close

/-- The `render` function of `app.py` (returning the HTML document string
handed to `HTMLResponse`).  `(message or "")` is the identity on genuine
strings; see `renderDyn` for the dynamically-typed version. -/
def render (message answer : Str) : Str :=
  let answer_block := if answer = [] then [] else answer_block_of answer
  let safe_message := escapeHtml message
  replaceAll answer_placeholder answer_block
    (replaceAll message_placeholder safe_message HTML)

/-- A dynamically-typed Python value, for the claim that `render` coerces
malformed (non-string) inputs. -/
inductive PyVal where
  | none
  | str (s : Str)
  | int (n : Int)
  deriving DecidableEq

/-- Python truthiness for `PyVal`. -/
def pyTruthy : PyVal → Bool
  | PyVal.none => false
  | PyVal.str s => !s.isEmpty
  | PyVal.int n => n != 0

/-- Python `a or b`. -/
def pyOr (a b : PyVal) : PyVal :=
  if pyTruthy a then a else b

/-- Detail of the `AttributeError` Python raises when `.replace` is invoked
on a non-string value. -/
def attributeErrorMsg : Str :=
  "AttributeError: object has no attribute replace".toList

/-- `render` on dynamically-typed inputs, exactly following the source: a
truthy `answer` gets `.replace` called on it (raising on a non-string), and
`message` is coerced through `(message or "")` before `.replace` (likewise
raising on a truthy non-string). -/
def renderDyn (message answer : PyVal) : Except Str Str :=
  match (if pyTruthy answer then
           match answer with
           | PyVal.str s => Except.ok (answer_div_open ++ escapeHtml s ++ answer_div_close)
           | _ => Except.error attributeErrorMsg
         else Except.ok []) with
  | Except.error e => Except.error e
  | Except.ok answer_block =>
    match pyOr message (PyVal.str []) with
    | PyVal.str s =>
      Except.ok (replaceAll answer_placeholder answer_block
        (replaceAll message_placeholder (escapeHtml s) HTML))
    | _ => Except.error attributeErrorMsg

/-- Interpretation of a `PyVal` as the string `render` would effectively
see (`None` coerces to the empty string). -/
def pyToStr : PyVal → Str
  | PyVal.str s => s
  | _ => []

/-- A `PyVal` that is a string or `None` (the inputs on which the renderer
does not raise). -/
def pyStrOrNone (v : PyVal) : Prop :=
  v = PyVal.none ∨ ∃ s, v = PyVal.str s

/-- `msg.text_messages[i].text` of the remote message SDK. -/
structure MessageText where
  value : Str
  deriving DecidableEq

/-- One text chunk of a remote thread message. -/
structure TextMessage where
  text : MessageText
  deriving DecidableEq

/-- A message of a remote conversation thread: a role and an optional list
of text chunks (`Option.none` models a missing/None `text_messages`
attribute, as read by `getattr(msg, "text_messages", None)`). -/
structure ThreadMessage where
  role : Str
  text_messages : Option (List TextMessage)
  deriving DecidableEq

/-- The remote agent object (only its `id` is used). -/
structure Agent where
  id : Str
  deriving DecidableEq

/-- A remote conversation thread (only its `id` is used). -/
structure AgentThread where
  id : Str
  deriving DecidableEq

/-- Terminal state of a remote run: its `status` string and the
stringified `last_error` detail interpolated by the relay. -/
structure AgentRun where
  status : Str
  last_error : Str
  deriving DecidableEq

/-- `ListSortOrder` of the remote SDK. -/
inductive SortOrder where
  | ascending
  | descending
  deriving DecidableEq

/-- The `"assistant"` role string compared against by the relay. -/
def assistantRole : Str := "assistant".toList

/-- The `"user"` role string the relay posts with. -/
def userRole : Str := "user".toList

/-- The `"failed"` status string the relay checks. -/
def failedStatus : Str := "failed".toList

/-- Python truthiness of the `text_messages` attribute (`None`/missing and
the empty list are falsy). -/
def optTruthy : Option (List TextMessage) → Bool
  | Option.none => false
  | some l => !l.isEmpty

/-- Python `msg.text_messages[-1]`: raises on `None` and on an empty list,
otherwise returns the last chunk. -/
def pyLastTextMessage : Option (List TextMessage) → Except Str TextMessage
  | Option.none => Except.error ("TypeError: None is not subscriptable".toList)
  | some [] => Except.error ("IndexError: list index out of range".toList)
  | some (t :: ts) => Except.ok (List.getLast (t :: ts) (List.cons_ne_nil t ts))

/-- The reply-collection loop of `call_agent` (step 5): for each message
with role `"assistant"` and a truthy `text_messages`, append the value of
the last text chunk, propagating any exception. -/
def collectAnswers : List ThreadMessage → Except Str (List Str)
  | [] => Except.ok []
  | msg :: rest =>
    if msg.role = assistantRole ∧ optTruthy msg.text_messages = true then
      match pyLastTextMessage msg.text_messages with
      | Except.error e => Except.error e
      | Except.ok tm =>
        match collectAnswers rest with
        | Except.error e => Except.error e
        | Except.ok answers => Except.ok (tm.text.value :: answers)
    else collectAnswers rest

/-- The remote agent service, as seen through the five operations
`call_agent` performs.  Each operation may raise, modelled as
`Except.error` carrying the stringified exception detail. -/
structure Env where
  get_agent : Str → Except Str Agent
  threads_create : Except Str AgentThread
  messages_create : Str → Str → Str → Except Str Unit
  runs_create_and_process : Str → Str → Except Str AgentRun
  messages_list : Str → SortOrder → Except Str (List ThreadMessage)

/-- Observable remote side effects of one relay invocation; an event is
recorded when the corresponding remote call returns successfully. -/
inductive AgentEvent where
  | gotAgent (agent_id : Str)
  | createdThread (thread_id : Str)
  | createdMessage (thread_id role content : Str)
  | ranAgent (thread_id agent_id : Str)
  | listedMessages (thread_id : Str)
  deriving DecidableEq

/-- Whether an event is a thread creation. -/
def isCreatedThreadEvent : AgentEvent → Bool
  | AgentEvent.createdThread _ => true
  | _ => false

/-- Whether an event is a run of the agent. -/
def isRanAgentEvent : AgentEvent → Bool
  | AgentEvent.ranAgent _ _ => true
  | _ => false

/-- The body of `call_agent`'s `try` block (steps 1-5 of the relay), with
the module-level `AGENT_ID` passed as the `agent_id` parameter.  Returns
the result of the body (`Except.error` when some step raised) together
with the trace of successful remote side effects. -/
def callAgentSteps (env : Env) (agent_id user_message : Str) :
    Except Str Str × List AgentEvent :=
  match env.get_agent agent_id with
  | Except.error e => (Except.error e, [])
  | Except.ok agent =>
    let tr1 := [AgentEvent.gotAgent agent.id]
    match env.threads_create with
    | Except.error e => (Except.error e, tr1)
    | Except.ok thread =>
      let tr2 := tr1 ++ [AgentEvent.createdThread thread.id]
      match env.messages_create thread.id userRole user_message with
      | Except.error e => (Except.error e, tr2)
      | Except.ok _ =>
        let tr3 := tr2 ++ [AgentEvent.createdMessage thread.id userRole user_message]
        match env.runs_create_and_process thread.id agent.id with
        | Except.error e => (Except.error e, tr3)
        | Except.ok r =>
          let tr4 := tr3 ++ [AgentEvent.ranAgent thread.id agent.id]
          if r.status = failedStatus then
            (Except.ok ("Run failed: ".toList ++ r.last_error), tr4)
          else
            match env.messages_list thread.id SortOrder.ascending with
            | Except.error e => (Except.error e, tr4)
            | Except.ok messages =>
              let tr5 := tr4 ++ [AgentEvent.listedMessages thread.id]
              match collectAnswers messages with
              | Except.error e => (Except.error e, tr5)
              | Except.ok answers =>
                if answers = [] then
                  (Except.ok ("(No assistant reply found.)".toList), tr5)
                else
                  (Except.ok (pyStrip (pyJoin ("\n\n".toList) answers)), tr5)

/-- `call_agent` of `app.py`: the `try` body, with every exception caught
at the boundary and converted to `"Error calling agent: <details>"`. -/
def call_agent (env : Env) (agent_id user_message : Str) : Str :=
  match (callAgentSteps env agent_id user_message).1 with
  | Except.ok s => s
  | Except.error e => "Error calling agent: ".toList ++ e

/-- Spec-side selector (step 5 as worded by the spec): filter to
role `"assistant"` entries carrying at least one text chunk and take only
the last chunk's text of each, in list order. -/
def specSelectedTexts (msgs : List ThreadMessage) : List Str :=
  msgs.filterMap fun msg =>
    match msg.text_messages with
    | some (t :: ts) =>
      if msg.role = assistantRole then
        some ((List.getLast (t :: ts) (List.cons_ne_nil t ts)).text.value)
      else Option.none
    | _ => Option.none

/-- An environment whose run terminates with the given status and error
detail and whose thread lists the given messages; all five operations
succeed. -/
def mkEnv (status err : Str) (msgs : List ThreadMessage) : Env where
  get_agent := fun _ => Except.ok ⟨"agent-1".toList⟩
  threads_create := Except.ok ⟨"thread-1".toList⟩
  messages_create := fun _ _ _ => Except.ok ()
  runs_create_and_process := fun _ _ => Except.ok ⟨status, err⟩
  messages_list := fun _ _ => Except.ok msgs

/-- An environment whose every remote operation raises with detail `e`. -/
def mkRaisingEnv (e : Str) : Env where
  get_agent := fun _ => Except.error e
  threads_create := Except.error e
  messages_create := fun _ _ _ => Except.error e
  runs_create_and_process := fun _ _ => Except.error e
  messages_list := fun _ _ => Except.error e

/-- An assistant message whose `text_messages` carries the given chunks. -/
def assistantMsg (chunks : List Str) : ThreadMessage :=
  ⟨assistantRole, some (chunks.map fun c => ⟨⟨c⟩⟩)⟩

/-- The thread contents for the spec's two-message example: `M1` with
chunks `[a, b]` and `M2` with chunk `[c]`, following the user's message. -/
def exampleMsgs : List ThreadMessage :=
  [⟨"user".toList, Option.none⟩,
   assistantMsg ["a".toList, "b".toList],
   assistantMsg ["c".toList]]

/-- `x` is clean before `pat`: no occurrence of `pat` starts inside `x`,
whatever follows `x` (no occurrence within `x`, and no proper prefix of
`pat` is a suffix of `x`).  Decidable, checked by `decide` on the concrete
template segments. -/
abbrev cleanBefore (pat x : Str) : Prop :=
  countOccs pat x = 0 ∧
    ∀ k, k < pat.length → 0 < k → k ≤ x.length →
      List.drop (x.length - k) x ≠ List.take k pat

/-- `os.environ.get(key, default)` over an association-list environment. -/
def os_environ_get (environ : List (Str × Str)) (key dflt : Str) : Str :=
  match List.lookup key environ with
  | some v => v
  | Option.none => dflt

/-- The environment key `"PROJECT_ENDPOINT"`. -/
def PROJECT_ENDPOINT_key : Str := "PROJECT_ENDPOINT".toList

/-- The environment key `"AGENT_ID"`. -/
def AGENT_ID_key : Str := "AGENT_ID".toList

/-- The hard-coded default of the `PROJECT_ENDPOINT` configuration value. -/
def PROJECT_ENDPOINT_default : Str :=
  "https://companyresearch.services.ai.azure.com/api/projects/companyResearch".toList

/-- The hard-coded default of the `AGENT_ID` configuration value. -/
def AGENT_ID_default : Str := "asst_Wb2ElHzBXdZtjCIOXlwoE8a3".toList

/-- `PROJECT_ENDPOINT = os.environ.get("PROJECT_ENDPOINT", <default>)`. -/
def PROJECT_ENDPOINT (environ : List (Str × Str)) : Str :=
  os_environ_get environ PROJECT_ENDPOINT_key PROJECT_ENDPOINT_default

/-- `AGENT_ID = os.environ.get("AGENT_ID", <default>)`. -/
def AGENT_ID (environ : List (Str × Str)) : Str :=
  os_environ_get environ AGENT_ID_key AGENT_ID_default

/-- The two startup checks of `app.py` (`if not PROJECT_ENDPOINT: raise`,
`if not AGENT_ID: raise`): `Except.error` models the `RuntimeError` that
aborts startup. -/
def startupCheck (environ : List (Str × Str)) : Except Str Unit :=
  if PROJECT_ENDPOINT environ = [] then
    Except.error ("PROJECT_ENDPOINT is not set.".toList)
  else if AGENT_ID environ = [] then
    Except.error ("AGENT_ID is not set.".toList)
  else Except.ok ()

/-! ### Lemmas about `replaceAll` and `countOccs` -/

theorem replaceFuel_fuel (pat rep : Str) :
    ∀ (f f' : Nat) (s : Str), s.length ≤ f → s.length ≤ f' →
      replaceFuel pat rep f s = replaceFuel pat rep f' s := by
  intro f
  induction f with
  | zero =>
    intro f' s hf _
    have hs : s = [] := by
      cases s with
      | nil => rfl
      | cons c rest => simp at hf
    subst hs
    cases f' <;> rfl
  | succ f ih =>
    intro f' s hf hf'
    cases s with
    | nil => cases f' <;> rfl
    | cons c rest =>
      cases f' with
      | zero => simp at hf'
      | succ f'' =>
        have hr : rest.length ≤ f := by
          rw [List.length_cons] at hf; omega
        have hr' : rest.length ≤ f'' := by
          rw [List.length_cons] at hf'; omega
        simp only [replaceFuel]
        by_cases h : List.take pat.length (c :: rest) = pat
        · rw [if_pos h, if_pos h]
          congr 1
          apply ih
          · rw [List.length_drop]; omega
          · rw [List.length_drop]; omega
        · rw [if_neg h, if_neg h]
          congr 1
          exact ih f'' rest hr hr'

theorem replaceAll_nil (pat rep : Str) : replaceAll pat rep [] = [] := by
  unfold replaceAll
  split_ifs <;> rfl

theorem replaceAll_cons (pat rep : Str) (hpat : pat ≠ []) (c : Char) (rest : Str) :
    replaceAll pat rep (c :: rest) =
      if List.take pat.length (c :: rest) = pat then
        rep ++ replaceAll pat rep (List.drop (pat.length - 1) rest)
      else c :: replaceAll pat rep rest := by
  simp only [replaceAll, if_neg hpat]
  show replaceFuel pat rep (rest.length + 1) (c :: rest) = _
  simp only [replaceFuel]
  by_cases h : List.take pat.length (c :: rest) = pat
  · rw [if_pos h, if_pos h]
    congr 1
    apply replaceFuel_fuel
    · rw [List.length_drop]; omega
    · exact le_refl _
  · rw [if_neg h, if_neg h]

theorem countOccs_cons (pat : Str) (c : Char) (rest : Str) :
    countOccs pat (c :: rest) =
      (if List.take pat.length (c :: rest) = pat then 1 else 0) + countOccs pat rest := rfl

theorem one_le_countOccs_nil_pat (l : Str) : 1 ≤ countOccs [] l := by
  cases l with
  | nil => simp [countOccs]
  | cons c r => simp [countOccs]

theorem countOccs_self_append (pat t : Str) (hpat : pat ≠ []) :
    countOccs pat (pat ++ t) = 1 + countOccs pat (List.drop 1 pat ++ t) := by
  cases pat with
  | nil => exact absurd rfl hpat
  | cons p pr =>
    rw [List.cons_append, countOccs_cons, if_pos]
    · rfl
    · rw [List.length_cons, List.take_succ_cons, List.take_left]

theorem countOccs_middle (pat x y : Str) : 1 ≤ countOccs pat (x ++ (pat ++ y)) := by
  induction x with
  | nil =>
    rw [List.nil_append]
    cases pat with
    | nil => exact one_le_countOccs_nil_pat _
    | cons p pr =>
      rw [List.cons_append, countOccs_cons, if_pos]
      · exact Nat.le_add_right 1 _
      · rw [List.length_cons, List.take_succ_cons, List.take_left]
  | cons c x' ih =>
    rw [List.cons_append, countOccs_cons]
    exact le_trans ih (Nat.le_add_left _ _)

theorem countOccs_le_of_append_pat (p q s : Str) : countOccs (p ++ q) s ≤ countOccs p s := by
  induction s with
  | nil =>
    simp only [countOccs]
    by_cases h : (p ++ q : Str) = []
    · have hp : p = [] := by
        rw [List.append_eq_nil] at h
        exact h.1
      rw [if_pos h, if_pos hp]
    · rw [if_neg h]
      exact Nat.zero_le _
  | cons c s' ih =>
    rw [countOccs_cons, countOccs_cons]
    refine Nat.add_le_add ?_ ih
    by_cases h : List.take (p ++ q).length (c :: s') = p ++ q
    · have hp : List.take p.length (c :: s') = p := by
        have h1 : List.take p.length (List.take (p ++ q).length (c :: s')) =
            List.take p.length (c :: s') := by
          rw [List.take_take]
          congr 1
          rw [List.length_append]
          exact inf_eq_left.mpr (Nat.le_add_right _ _)
        rw [h, List.take_left] at h1
        exact h1.symm
      rw [if_pos h, if_pos hp]
    · rw [if_neg h]
      exact Nat.zero_le _

theorem cleanBefore_tail (pat : Str) (c : Char) (x' : Str) (hx : cleanBefore pat (c :: x')) :
    cleanBefore pat x' := by
  constructor
  · have h := hx.1
    rw [countOccs_cons] at h
    omega
  · intro k hk hk0 hkx
    have h2 := hx.2 k hk hk0 (by rw [List.length_cons]; omega)
    rw [List.length_cons] at h2
    have he : x'.length + 1 - k = (x'.length - k) + 1 := by omega
    rw [he, List.drop_succ_cons] at h2
    exact h2

theorem take_append_ne_of_clean (pat : Str) (c : Char) (x' t : Str) (hpat : pat ≠ [])
    (hx : cleanBefore pat (c :: x')) :
    List.take pat.length ((c :: x') ++ t) ≠ pat := by
  intro h
  by_cases hle : pat.length ≤ (c :: x').length
  · rw [List.take_append_of_le_length hle] at h
    have h0 := hx.1
    rw [countOccs_cons, if_pos h] at h0
    omega
  · push_neg at hle
    have hlen : (c :: x').length ≤ pat.length := Nat.le_of_lt hle
    rw [List.take_append_eq_append_take, List.take_of_length_le hlen] at h
    have hsplit : List.take (c :: x').length pat = c :: x' := by
      rw [← h, List.take_left]
    have hk := hx.2 (c :: x').length hle (by simp) (le_refl _)
    rw [Nat.sub_self, List.drop_zero] at hk
    exact hk hsplit.symm

theorem countOccs_append_clean (pat t : Str) (hpat : pat ≠ []) :
    ∀ x : Str, cleanBefore pat x → countOccs pat (x ++ t) = countOccs pat t := by
  intro x
  induction x with
  | nil => intro _; rfl
  | cons c x' ih =>
    intro hx
    have hne := take_append_ne_of_clean pat c x' t hpat hx
    rw [List.cons_append] at hne
    rw [List.cons_append, countOccs_cons, if_neg hne, ih (cleanBefore_tail pat c x' hx),
      Nat.zero_add]

theorem countOccs_append_opaque_cons (c : Char) (pr t : Str) :
    ∀ u : Str, c ∉ u → countOccs (c :: pr) (u ++ t) = countOccs (c :: pr) t := by
  intro u
  induction u with
  | nil => intro _; rfl
  | cons d u' ih =>
    intro hc
    have hdc : d ≠ c := fun h => hc (by rw [h]; exact List.mem_cons_self _ _)
    have hcu' : c ∉ u' := fun h => hc (List.mem_cons_of_mem _ h)
    have hne : List.take (c :: pr).length (d :: (u' ++ t)) ≠ c :: pr := by
      rw [List.length_cons, List.take_succ_cons]
      intro h
      injection h with h1 _
      exact hdc h1
    rw [List.cons_append, countOccs_cons, if_neg hne, ih hcu', Nat.zero_add]

theorem countOccs_append_opaque (pat : Str) (c : Char) (u t : Str)
    (hhead : List.take 1 pat = [c]) (hc : c ∉ u) :
    countOccs pat (u ++ t) = countOccs pat t := by
  obtain ⟨pr, rfl⟩ : ∃ pr, pat = c :: pr := by
    cases pat with
    | nil => simp at hhead
    | cons p pr =>
      have h1 : List.take 1 (p :: pr) = [p] := rfl
      rw [h1] at hhead
      injection hhead with h2 _
      exact ⟨pr, by rw [h2]⟩
  exact countOccs_append_opaque_cons c pr t u hc

theorem replaceAll_of_countOccs_zero (pat rep : Str) (hpat : pat ≠ []) :
    ∀ s : Str, countOccs pat s = 0 → replaceAll pat rep s = s := by
  intro s
  induction s with
  | nil => intro _; exact replaceAll_nil pat rep
  | cons c rest ih =>
    intro h
    rw [countOccs_cons] at h
    have h1 : List.take pat.length (c :: rest) ≠ pat := by
      intro hcontra
      rw [if_pos hcontra] at h
      omega
    have h2 : countOccs pat rest = 0 := by omega
    rw [replaceAll_cons pat rep hpat, if_neg h1, ih h2]

theorem replaceAll_append_clean (pat rep t : Str) (hpat : pat ≠ []) :
    ∀ x : Str, cleanBefore pat x → replaceAll pat rep (x ++ t) = x ++ replaceAll pat rep t := by
  intro x
  induction x with
  | nil => intro _; rfl
  | cons c x' ih =>
    intro hx
    have hne := take_append_ne_of_clean pat c x' t hpat hx
    rw [List.cons_append] at hne
    rw [List.cons_append, replaceAll_cons pat rep hpat, if_neg hne,
      ih (cleanBefore_tail pat c x' hx), List.cons_append]

theorem replaceAll_append_free (pat rep t : Str) (hpat : pat ≠ [])
    (ht : ∀ k, k < pat.length → 0 < k → List.take (pat.length - k) t ≠ List.drop k pat) :
    ∀ u : Str, countOccs pat u = 0 →
      replaceAll pat rep (u ++ t) = u ++ replaceAll pat rep t := by
  intro u
  induction u with
  | nil => intro _; rfl
  | cons d u' ih =>
    intro hu
    rw [countOccs_cons] at hu
    have hu' : countOccs pat u' = 0 := by omega
    have hne : List.take pat.length ((d :: u') ++ t) ≠ pat := by
      intro h
      by_cases hle : pat.length ≤ (d :: u').length
      · rw [List.take_append_of_le_length hle] at h
        rw [if_pos h] at hu
        omega
      · push_neg at hle
        have hlen : (d :: u').length ≤ pat.length := Nat.le_of_lt hle
        rw [List.take_append_eq_append_take, List.take_of_length_le hlen] at h
        have hk := ht (d :: u').length hle (by simp)
        have hsplit : (d :: u') ++ List.take (pat.length - (d :: u').length) t =
            List.take (d :: u').length pat ++ List.drop (d :: u').length pat := by
          rw [List.take_append_drop]
          exact h
        have hinj := List.append_inj hsplit (by
          rw [List.length_take]
          exact (inf_eq_left.mpr hlen).symm)
        exact hk hinj.2
    rw [List.cons_append] at hne
    rw [List.cons_append, replaceAll_cons pat rep hpat, if_neg hne, ih hu', List.cons_append]

theorem replaceAll_append_self (pat rep y : Str) (hpat : pat ≠ []) :
    replaceAll pat rep (pat ++ y) = rep ++ replaceAll pat rep y := by
  cases pat with
  | nil => exact absurd rfl hpat
  | cons p pr =>
    rw [List.cons_append, replaceAll_cons _ _ hpat, if_pos]
    · congr 2
      rw [List.length_cons, Nat.add_sub_cancel, List.drop_left]
    · rw [List.length_cons, List.take_succ_cons, List.take_left]

theorem mem_replaceAll_single (p : Char) (rep : Str) :
    ∀ (s : Str) (x : Char), x ∈ replaceAll [p] rep s → x ∈ rep ∨ (x ∈ s ∧ x ≠ p) := by
  intro s
  induction s with
  | nil =>
    intro x hx
    rw [replaceAll_nil] at hx
    simp at hx
  | cons d rest ih =>
    intro x hx
    rw [replaceAll_cons [p] rep (by simp) d rest] at hx
    by_cases h : List.take ([p] : Str).length (d :: rest) = [p]
    · rw [if_pos h] at hx
      rw [List.mem_append] at hx
      rcases hx with hx | hx
      · exact Or.inl hx
      · rw [show ([p] : Str).length - 1 = 0 from rfl, List.drop_zero] at hx
        rcases ih x hx with h1 | ⟨h2, h3⟩
        · exact Or.inl h1
        · exact Or.inr ⟨List.mem_cons_of_mem _ h2, h3⟩
    · rw [if_neg h] at hx
      rcases List.mem_cons.mp hx with rfl | hx'
      · refine Or.inr ⟨List.mem_cons_self _ _, ?_⟩
        intro hdp
        apply h
        have h1 : List.take ([p] : Str).length (x :: rest) = [x] := rfl
        rw [h1, hdp]
      · rcases ih x hx' with h1 | ⟨h2, h3⟩
        · exact Or.inl h1
        · exact Or.inr ⟨List.mem_cons_of_mem _ h2, h3⟩

theorem not_mem_escapeHtml_lt (s : Str) : '<' ∉ escapeHtml s := by
  intro h
  unfold escapeHtml at h
  rcases mem_replaceAll_single '>' ("&gt;".toList) _ '<' h with h1 | ⟨h2, _⟩
  · exact absurd h1 (by decide)
  · rcases mem_replaceAll_single '<' ("&lt;".toList) _ '<' h2 with h3 | ⟨_, h4⟩
    · exact absurd h3 (by decide)
    · exact h4 rfl

theorem not_mem_escapeHtml_gt (s : Str) : '>' ∉ escapeHtml s := by
  intro h
  unfold escapeHtml at h
  rcases mem_replaceAll_single '>' ("&gt;".toList) _ '>' h with h1 | ⟨_, h2⟩
  · exact absurd h1 (by decide)
  · exact h2 rfl

/-! ### Structure of `render`'s output -/

theorem replaceAll_message (s : Str) :
    replaceAll message_placeholder s HTML =
      html_pre1 ++ (html_pre2 ++ (html_pre3 ++ (s ++
        (html_mid ++ (answer_placeholder ++ html_post))))) := by
  have hp : message_placeholder ≠ [] := by decide
  have hHTML : HTML =
      html_pre1 ++ (html_pre2 ++ (html_pre3 ++ (message_placeholder ++
        (html_mid ++ (answer_placeholder ++ html_post))))) := by
    simp [HTML, List.append_assoc]
  rw [hHTML,
    replaceAll_append_clean message_placeholder s _ hp html_pre1 (by decide),
    replaceAll_append_clean message_placeholder s _ hp html_pre2 (by decide),
    replaceAll_append_clean message_placeholder s _ hp html_pre3 (by decide),
    replaceAll_append_self message_placeholder s _ hp,
    replaceAll_of_countOccs_zero message_placeholder s hp
      (html_mid ++ (answer_placeholder ++ html_post)) (by decide)]

theorem replaceAll_answer_tail (block : Str) :
    replaceAll answer_placeholder block (html_mid ++ (answer_placeholder ++ html_post)) =
      html_mid ++ (block ++ html_post) := by
  have hp : answer_placeholder ≠ [] := by decide
  rw [replaceAll_append_clean answer_placeholder block _ hp html_mid (by decide),
    replaceAll_append_self answer_placeholder block _ hp,
    replaceAll_of_countOccs_zero answer_placeholder block hp html_post (by decide)]

theorem replaceAll_answer (block sm : Str) (hsm : countOccs answer_placeholder sm = 0) :
    replaceAll answer_placeholder block
      (html_pre1 ++ (html_pre2 ++ (html_pre3 ++ (sm ++
        (html_mid ++ (answer_placeholder ++ html_post)))))) =
      html_pre1 ++ (html_pre2 ++ (html_pre3 ++ (sm ++
        (html_mid ++ (block ++ html_post))))) := by
  have hp : answer_placeholder ≠ [] := by decide
  rw [replaceAll_append_clean answer_placeholder block _ hp html_pre1 (by decide),
    replaceAll_append_clean answer_placeholder block _ hp html_pre2 (by decide),
    replaceAll_append_clean answer_placeholder block _ hp html_pre3 (by decide),
    replaceAll_append_free answer_placeholder block _ hp (by decide) sm hsm,
    replaceAll_answer_tail block]

theorem render_decomposition (m a : Str)
    (hm : countOccs answer_placeholder (escapeHtml m) = 0) :
    render m a =
      html_pre1 ++ (html_pre2 ++ (html_pre3 ++ (escapeHtml m ++
        (html_mid ++ ((if a = [] then [] else answer_block_of a) ++ html_post))))) := by
  show replaceAll answer_placeholder (if a = [] then [] else answer_block_of a)
      (replaceAll message_placeholder (escapeHtml m) HTML) = _
  rw [replaceAll_message (escapeHtml m), replaceAll_answer _ _ hm]

theorem render_eq_of_ne (m a : Str) (ha : a ≠ [])
    (hm : countOccs answer_placeholder (escapeHtml m) = 0) :
    render m a =
      html_pre1 ++ (html_pre2 ++ (html_pre3 ++ (escapeHtml m ++
        (html_mid ++ (answer_div_open ++ (escapeHtml a ++
          (answer_div_close ++ html_post))))))) := by
  rw [render_decomposition m a hm, if_neg ha]
  simp [answer_block_of, List.append_assoc]

theorem render_eq_of_empty (m : Str)
    (hm : countOccs answer_placeholder (escapeHtml m) = 0) :
    render m [] =
      html_pre1 ++ (html_pre2 ++ (html_pre3 ++ (escapeHtml m ++
        (html_mid ++ html_post)))) := by
  rw [render_decomposition m [] hm, if_pos rfl, List.nil_append]

theorem countOccs_adv_open_eq_one (sm sa : Str) (hsm : '<' ∉ sm) (hsa : '<' ∉ sa) :
    countOccs answer_div_open
      (html_pre1 ++ (html_pre2 ++ (html_pre3 ++ (sm ++
        (html_mid ++ (answer_div_open ++ (sa ++
          (answer_div_close ++ html_post)))))))) = 1 := by
  have hp : answer_div_open ≠ [] := by decide
  rw [countOccs_append_clean answer_div_open _ hp html_pre1 (by decide),
    countOccs_append_clean answer_div_open _ hp html_pre2 (by decide),
    countOccs_append_clean answer_div_open _ hp html_pre3 (by decide),
    countOccs_append_opaque answer_div_open '<' sm _ (by decide) hsm,
    countOccs_append_clean answer_div_open _ hp html_mid (by decide),
    countOccs_self_append answer_div_open _ hp,
    countOccs_append_clean answer_div_open _ hp (List.drop 1 answer_div_open) (by decide),
    countOccs_append_opaque answer_div_open '<' sa _ (by decide) hsa]
  have h0 : countOccs answer_div_open (answer_div_close ++ html_post) = 0 := by decide
  omega

theorem countOccs_adv_open_eq_zero (sm : Str) (hsm : '<' ∉ sm) :
    countOccs answer_div_open
      (html_pre1 ++ (html_pre2 ++ (html_pre3 ++ (sm ++
        (html_mid ++ html_post))))) = 0 := by
  have hp : answer_div_open ≠ [] := by decide
  rw [countOccs_append_clean answer_div_open _ hp html_pre1 (by decide),
    countOccs_append_clean answer_div_open _ hp html_pre2 (by decide),
    countOccs_append_clean answer_div_open _ hp html_pre3 (by decide),
    countOccs_append_opaque answer_div_open '<' sm _ (by decide) hsm]
  decide

/-! ### Claims about the renderer -/

/-- C6: for non-empty `a`, the rendered page carries the escaped message
inside the editable field (between the textarea tags) and contains the
escaped answer, with the answer block occurring exactly once, and for
`a = ""` it carries the escaped message inside the editable field and no
answer block — this holds for every message whose escaped form does not
contain the literal placeholder `\x7b\x7banswer_block\x7d\x7d` (the claim
as stated, without that proviso, is refuted by
`render_answer_block_duplicated`). -/
theorem render_embeds_escaped_message_and_answer :
    (∀ m a : Str, a ≠ [] → countOccs answer_placeholder (escapeHtml m) = 0 →
      (∃ pre post, render m a =
        pre ++ (textarea_open ++ (escapeHtml m ++ textarea_close)) ++ post) ∧
      1 ≤ countOccs (escapeHtml m) (render m a) ∧
      1 ≤ countOccs (escapeHtml a) (render m a) ∧
      countOccs (answer_block_of a) (render m a) = 1) ∧
    (∀ m : Str, countOccs answer_placeholder (escapeHtml m) = 0 →
      (∃ pre post, render m [] =
        pre ++ (textarea_open ++ (escapeHtml m ++ textarea_close)) ++ post) ∧
      1 ≤ countOccs (escapeHtml m) (render m []) ∧
      countOccs answer_div_open (render m []) = 0) := by
  have h3split : html_pre3 =
      List.take (html_pre3.length - textarea_open.length) html_pre3 ++ textarea_open := by
    decide
  have hmidsplit : html_mid =
      textarea_close ++ List.drop textarea_close.length html_mid := by decide
  constructor
  · intro m a ha hm
    rw [render_eq_of_ne m a ha hm]
    refine ⟨?_, ?_, ?_, ?_⟩
    · refine ⟨html_pre1 ++ html_pre2 ++
          List.take (html_pre3.length - textarea_open.length) html_pre3,
        List.drop textarea_close.length html_mid ++
          (answer_div_open ++ (escapeHtml a ++ (answer_div_close ++ html_post))), ?_⟩
      conv_lhs => rw [h3split, hmidsplit]
      simp [List.append_assoc]
    · have heq :
          html_pre1 ++ (html_pre2 ++ (html_pre3 ++ (escapeHtml m ++
            (html_mid ++ (answer_div_open ++ (escapeHtml a ++
              (answer_div_close ++ html_post))))))) =
          (html_pre1 ++ html_pre2 ++ html_pre3) ++ (escapeHtml m ++
            (html_mid ++ (answer_div_open ++ (escapeHtml a ++
              (answer_div_close ++ html_post))))) := by
        simp [List.append_assoc]
      rw [heq]
      exact countOccs_middle _ _ _
    · have heq :
          html_pre1 ++ (html_pre2 ++ (html_pre3 ++ (escapeHtml m ++
            (html_mid ++ (answer_div_open ++ (escapeHtml a ++
              (answer_div_close ++ html_post))))))) =
          (html_pre1 ++ html_pre2 ++ html_pre3 ++ escapeHtml m ++ html_mid ++
            answer_div_open) ++ (escapeHtml a ++ (answer_div_close ++ html_post)) := by
        simp [List.append_assoc]
      rw [heq]
      exact countOccs_middle _ _ _
    · have h1 := countOccs_adv_open_eq_one (escapeHtml m) (escapeHtml a)
        (not_mem_escapeHtml_lt m) (not_mem_escapeHtml_lt a)
      have habo : answer_block_of a =
          answer_div_open ++ (escapeHtml a ++ answer_div_close) := by
        simp [answer_block_of, List.append_assoc]
      have h2 := countOccs_le_of_append_pat answer_div_open
        (escapeHtml a ++ answer_div_close)
        (html_pre1 ++ (html_pre2 ++ (html_pre3 ++ (escapeHtml m ++
          (html_mid ++ (answer_div_open ++ (escapeHtml a ++
            (answer_div_close ++ html_post))))))))
      rw [← habo] at h2
      have h3 : 1 ≤ countOccs (answer_block_of a)
          (html_pre1 ++ (html_pre2 ++ (html_pre3 ++ (escapeHtml m ++
            (html_mid ++ (answer_div_open ++ (escapeHtml a ++
              (answer_div_close ++ html_post)))))))) := by
        have heq :
            html_pre1 ++ (html_pre2 ++ (html_pre3 ++ (escapeHtml m ++
              (html_mid ++ (answer_div_open ++ (escapeHtml a ++
                (answer_div_close ++ html_post))))))) =
            (html_pre1 ++ html_pre2 ++ html_pre3 ++ escapeHtml m ++ html_mid) ++
              (answer_block_of a ++ html_post) := by
          simp [answer_block_of, List.append_assoc]
        rw [heq]
        exact countOccs_middle _ _ _
      omega
  · intro m hm
    rw [render_eq_of_empty m hm]
    refine ⟨?_, ?_, ?_⟩
    · refine ⟨html_pre1 ++ html_pre2 ++
          List.take (html_pre3.length - textarea_open.length) html_pre3,
        List.drop textarea_close.length html_mid ++ html_post, ?_⟩
      conv_lhs => rw [h3split, hmidsplit]
      simp [List.append_assoc]
    · have heq :
          html_pre1 ++ (html_pre2 ++ (html_pre3 ++ (escapeHtml m ++
            (html_mid ++ html_post)))) =
          (html_pre1 ++ html_pre2 ++ html_pre3) ++ (escapeHtml m ++
            (html_mid ++ html_post)) := by
        simp [List.append_assoc]
      rw [heq]
      exact countOccs_middle _ _ _
    · exact countOccs_adv_open_eq_zero (escapeHtml m) (not_mem_escapeHtml_lt m)

/-- C6 witness: the message `hi` with answer `ok` satisfies the proviso and
the rendered page carries the escaped message inside the editable field and
embeds both strings, with exactly one answer block. -/
theorem render_embeds_escaped_message_and_answer_witness :
    (∃ pre post, render ("hi".toList) ("ok".toList) =
      pre ++ (textarea_open ++ (escapeHtml ("hi".toList) ++ textarea_close)) ++ post) ∧
    1 ≤ countOccs (escapeHtml ("hi".toList)) (render ("hi".toList) ("ok".toList)) ∧
    1 ≤ countOccs (escapeHtml ("ok".toList)) (render ("hi".toList) ("ok".toList)) ∧
    countOccs (answer_block_of ("ok".toList)) (render ("hi".toList) ("ok".toList)) = 1 :=
  render_embeds_escaped_message_and_answer.1 ("hi".toList) ("ok".toList)
    (by decide) (by decide)

/-- C6 counterexample: a message consisting of the literal placeholder
`\x7b\x7banswer_block\x7d\x7d` survives escaping, is substituted into the
template by the first `replace`, and is then hit by the second `replace`,
so the answer block appears twice instead of exactly once. -/
theorem render_answer_block_duplicated :
    countOccs (answer_block_of ("x".toList))
      (render ("\x7b\x7banswer_block\x7d\x7d".toList) ("x".toList)) = 2 := by
  have hm0 : escapeHtml ("\x7b\x7banswer_block\x7d\x7d".toList) = answer_placeholder := by
    decide
  have hx : ("x".toList : Str) ≠ [] := by decide
  show countOccs (answer_block_of ("x".toList))
    (replaceAll answer_placeholder
      (if ("x".toList : Str) = [] then [] else answer_block_of ("x".toList))
      (replaceAll message_placeholder
        (escapeHtml ("\x7b\x7banswer_block\x7d\x7d".toList)) HTML)) = 2
  rw [if_neg hx, hm0, replaceAll_message answer_placeholder]
  have hp : answer_placeholder ≠ [] := by decide
  rw [replaceAll_append_clean answer_placeholder _ _ hp html_pre1 (by decide),
    replaceAll_append_clean answer_placeholder _ _ hp html_pre2 (by decide),
    replaceAll_append_clean answer_placeholder _ _ hp html_pre3 (by decide),
    replaceAll_append_self answer_placeholder _ _ hp,
    replaceAll_answer_tail]
  have hb : (answer_block_of ("x".toList) : Str) ≠ [] := by decide
  rw [countOccs_append_clean _ _ hb html_pre1 (by decide),
    countOccs_append_clean _ _ hb html_pre2 (by decide),
    countOccs_append_clean _ _ hb html_pre3 (by decide),
    countOccs_self_append _ _ hb,
    countOccs_append_clean _ _ hb (List.drop 1 (answer_block_of ("x".toList))) (by decide),
    countOccs_append_clean _ _ hb html_mid (by decide),
    countOccs_self_append _ _ hb,
    countOccs_append_clean _ _ hb (List.drop 1 (answer_block_of ("x".toList))) (by decide)]
  have h0 : countOccs (answer_block_of ("x".toList)) html_post = 0 := by decide
  omega

/-- C7: escaping replaces `&`, `<`, `>` in that order, so no
double-escaping occurs: `<script>` escapes to `&lt;script&gt;`, the
rendered page contains `&lt;script&gt;`, and it never contains the
double-escaped `&amp;lt;script&amp;gt;`. -/
theorem escape_ordered_no_double_escape :
    escapeHtml ("<script>".toList) = "&lt;script&gt;".toList ∧
    1 ≤ countOccs ("&lt;script&gt;".toList) (render ("<script>".toList) []) ∧
    countOccs ("&amp;lt;script&amp;gt;".toList) (render ("<script>".toList) []) = 0 ∧
    ∀ s : Str, escapeHtml s =
      replaceAll (">".toList) ("&gt;".toList)
        (replaceAll ("<".toList) ("&lt;".toList)
          (replaceAll ("&".toList) ("&amp;".toList) s)) := by
  have hesc : escapeHtml ("<script>".toList) = "&lt;script&gt;".toList := by decide
  have hdec := render_eq_of_empty ("<script>".toList) (by decide)
  rw [hesc] at hdec
  refine ⟨hesc, ?_, ?_, fun s => rfl⟩
  · rw [hdec]
    have heq :
        html_pre1 ++ (html_pre2 ++ (html_pre3 ++ ("&lt;script&gt;".toList ++
          (html_mid ++ html_post)))) =
        (html_pre1 ++ html_pre2 ++ html_pre3) ++ ("&lt;script&gt;".toList ++
          (html_mid ++ html_post)) := by
      simp [List.append_assoc]
    rw [heq]
    exact countOccs_middle _ _ _
  · rw [hdec]
    have hp : ("&amp;lt;script&amp;gt;".toList : Str) ≠ [] := by decide
    rw [countOccs_append_clean _ _ hp html_pre1 (by decide),
      countOccs_append_clean _ _ hp html_pre2 (by decide),
      countOccs_append_clean _ _ hp html_pre3 (by decide),
      countOccs_append_clean _ _ hp ("&lt;script&gt;".toList) (by decide)]
    decide

/-! ### Lemmas about the relay -/

theorem collectAnswers_eq_ok (msgs : List ThreadMessage) :
    collectAnswers msgs = Except.ok (specSelectedTexts msgs) := by
  induction msgs with
  | nil => rfl
  | cons msg rest ih =>
    rcases htm : msg.text_messages with _ | l
    · simp [collectAnswers, specSelectedTexts, List.filterMap_cons, htm, optTruthy, ih]
    · cases l with
      | nil => simp [collectAnswers, specSelectedTexts, List.filterMap_cons, htm, optTruthy, ih]
      | cons t ts =>
        by_cases hrole : msg.role = assistantRole
        · simp [collectAnswers, specSelectedTexts, List.filterMap_cons, htm, optTruthy,
            hrole, pyLastTextMessage, ih]
        · simp [collectAnswers, specSelectedTexts, List.filterMap_cons, htm, optTruthy,
            hrole, ih]

theorem specSelectedTexts_eq_nil (msgs : List ThreadMessage)
    (h : ∀ msg ∈ msgs, ¬(msg.role = assistantRole ∧ optTruthy msg.text_messages = true)) :
    specSelectedTexts msgs = [] := by
  induction msgs with
  | nil => rfl
  | cons msg rest ih =>
    have hmsg := h msg (List.mem_cons_self _ _)
    have hrest : ∀ m ∈ rest, ¬(m.role = assistantRole ∧ optTruthy m.text_messages = true) :=
      fun m hm => h m (List.mem_cons_of_mem _ hm)
    rcases htm : msg.text_messages with _ | l
    · simpa [specSelectedTexts, List.filterMap_cons, htm] using ih hrest
    · cases l with
      | nil => simpa [specSelectedTexts, List.filterMap_cons, htm] using ih hrest
      | cons t ts =>
        have hrole : ¬ msg.role = assistantRole := by
          intro hr
          exact hmsg ⟨hr, by simp [htm, optTruthy]⟩
        simpa [specSelectedTexts, List.filterMap_cons, htm, hrole] using ih hrest

theorem callAgentSteps_failed (env : Env) (aid m : Str) (ag : Agent) (th : AgentThread)
    (r : AgentRun)
    (h1 : env.get_agent aid = Except.ok ag)
    (h2 : env.threads_create = Except.ok th)
    (h3 : env.messages_create th.id userRole m = Except.ok ())
    (h4 : env.runs_create_and_process th.id ag.id = Except.ok r)
    (h5 : r.status = failedStatus) :
    callAgentSteps env aid m =
      (Except.ok ("Run failed: ".toList ++ r.last_error),
       [AgentEvent.gotAgent ag.id, AgentEvent.createdThread th.id,
        AgentEvent.createdMessage th.id userRole m,
        AgentEvent.ranAgent th.id ag.id]) := by
  simp only [callAgentSteps, h1, h2, h3, h4, h5]
  simp

theorem callAgentSteps_completed (env : Env) (aid m : Str) (ag : Agent) (th : AgentThread)
    (r : AgentRun) (msgs : List ThreadMessage)
    (h1 : env.get_agent aid = Except.ok ag)
    (h2 : env.threads_create = Except.ok th)
    (h3 : env.messages_create th.id userRole m = Except.ok ())
    (h4 : env.runs_create_and_process th.id ag.id = Except.ok r)
    (h5 : r.status ≠ failedStatus)
    (h6 : env.messages_list th.id SortOrder.ascending = Except.ok msgs) :
    callAgentSteps env aid m =
      ((if specSelectedTexts msgs = [] then Except.ok ("(No assistant reply found.)".toList)
        else Except.ok (pyStrip (pyJoin ("\n\n".toList) (specSelectedTexts msgs)))),
       [AgentEvent.gotAgent ag.id, AgentEvent.createdThread th.id,
        AgentEvent.createdMessage th.id userRole m,
        AgentEvent.ranAgent th.id ag.id, AgentEvent.listedMessages th.id]) := by
  simp only [callAgentSteps, h1, h2, h3, h4, h5, h6, collectAnswers_eq_ok, if_neg h5]
  split_ifs <;> simp_all

/-! ### Claims about the relay -/

/-- C1: when the run terminates `completed` and the thread lists `msgs` in
ascending order with at least one assistant message carrying text, the
relay returns exactly the last text chunk of each such message, joined in
chronological order by a blank line, with surrounding whitespace
stripped. -/
theorem relay_returns_last_chunks_joined :
    ∀ (env : Env) (aid m : Str) (ag : Agent) (th : AgentThread) (r : AgentRun)
      (msgs : List ThreadMessage),
      env.get_agent aid = Except.ok ag →
      env.threads_create = Except.ok th →
      env.messages_create th.id userRole m = Except.ok () →
      env.runs_create_and_process th.id ag.id = Except.ok r →
      r.status = "completed".toList →
      env.messages_list th.id SortOrder.ascending = Except.ok msgs →
      specSelectedTexts msgs ≠ [] →
      call_agent env aid m = pyStrip (pyJoin ("\n\n".toList) (specSelectedTexts msgs)) := by
  intro env aid m ag th r msgs h1 h2 h3 h4 h5 h6 hne
  have h5' : r.status ≠ failedStatus := by rw [h5]; decide
  have hsteps := callAgentSteps_completed env aid m ag th r msgs h1 h2 h3 h4 h5' h6
  simp [call_agent, hsteps, if_neg hne]

/-- C1 witness: assistant messages `M1` with chunks `[a, b]` and `M2` with
chunk `[c]` yield exactly `"b\n\nc"`. -/
theorem relay_returns_last_chunks_joined_witness :
    call_agent (mkEnv ("completed".toList) [] exampleMsgs) ("asst".toList) ("q".toList) =
      "b\n\nc".toList := by
  have h := relay_returns_last_chunks_joined (mkEnv ("completed".toList) [] exampleMsgs)
    ("asst".toList) ("q".toList) ⟨"agent-1".toList⟩ ⟨"thread-1".toList⟩
    ⟨"completed".toList, []⟩ exampleMsgs rfl rfl rfl rfl rfl rfl (by decide)
  rw [h]
  decide

/-- C5: when the run completes but the thread contains no assistant message
carrying text, the relay returns exactly the no-reply sentinel, through the
non-error path. -/
theorem relay_no_reply_sentinel :
    ∀ (env : Env) (aid m : Str) (ag : Agent) (th : AgentThread) (r : AgentRun)
      (msgs : List ThreadMessage),
      env.get_agent aid = Except.ok ag →
      env.threads_create = Except.ok th →
      env.messages_create th.id userRole m = Except.ok () →
      env.runs_create_and_process th.id ag.id = Except.ok r →
      r.status = "completed".toList →
      env.messages_list th.id SortOrder.ascending = Except.ok msgs →
      (∀ msg ∈ msgs, ¬(msg.role = assistantRole ∧ optTruthy msg.text_messages = true)) →
      call_agent env aid m = "(No assistant reply found.)".toList ∧
      (callAgentSteps env aid m).1 = Except.ok ("(No assistant reply found.)".toList) := by
  intro env aid m ag th r msgs h1 h2 h3 h4 h5 h6 hnone
  have h5' : r.status ≠ failedStatus := by rw [h5]; decide
  have hnil := specSelectedTexts_eq_nil msgs hnone
  have hsteps := callAgentSteps_completed env aid m ag th r msgs h1 h2 h3 h4 h5' h6
  constructor
  · simp [call_agent, hsteps, hnil]
  · simp [hsteps, hnil]

/-- C5 witness: a thread with only the user's message yields the
sentinel. -/
theorem relay_no_reply_sentinel_witness :
    call_agent (mkEnv ("completed".toList) [] [⟨"user".toList, Option.none⟩])
      ("asst".toList) ("q".toList) = "(No assistant reply found.)".toList :=
  (relay_no_reply_sentinel (mkEnv ("completed".toList) [] [⟨"user".toList, Option.none⟩])
    ("asst".toList) ("q".toList) ⟨"agent-1".toList⟩ ⟨"thread-1".toList⟩
    ⟨"completed".toList, []⟩ [⟨"user".toList, Option.none⟩]
    rfl rfl rfl rfl rfl rfl (by decide)).1

/-- C2 (amended): only the terminal status `failed` short-circuits — it
yields `"Run failed: <detail>"`, no message listing happens and the run is
not retried; every other status (successful or not) proceeds to message
collection. -/
theorem run_failed_short_circuits :
    ∀ (env : Env) (aid m : Str) (ag : Agent) (th : AgentThread) (r : AgentRun),
      env.get_agent aid = Except.ok ag →
      env.threads_create = Except.ok th →
      env.messages_create th.id userRole m = Except.ok () →
      env.runs_create_and_process th.id ag.id = Except.ok r →
      (r.status = failedStatus →
        call_agent env aid m = "Run failed: ".toList ++ r.last_error ∧
        (∀ tid, AgentEvent.listedMessages tid ∉ (callAgentSteps env aid m).2) ∧
        List.countP isRanAgentEvent (callAgentSteps env aid m).2 = 1) ∧
      (r.status ≠ failedStatus →
        ∀ msgs, env.messages_list th.id SortOrder.ascending = Except.ok msgs →
          AgentEvent.listedMessages th.id ∈ (callAgentSteps env aid m).2) := by
  intro env aid m ag th r h1 h2 h3 h4
  constructor
  · intro h5
    have hsteps := callAgentSteps_failed env aid m ag th r h1 h2 h3 h4 h5
    refine ⟨?_, ?_, ?_⟩
    · simp [call_agent, hsteps]
    · intro tid
      simp [hsteps]
    · simp [hsteps, isRanAgentEvent, List.countP_cons]
  · intro h5 msgs h6
    have hsteps := callAgentSteps_completed env aid m ag th r msgs h1 h2 h3 h4 h5 h6
    simp [hsteps]

/-- C2 witness: a `failed` run yields `"Run failed: boom"`, no listing
event, and a single run event. -/
theorem run_failed_short_circuits_witness :
    call_agent (mkEnv ("failed".toList) ("boom".toList) exampleMsgs)
      ("asst".toList) ("q".toList) = "Run failed: ".toList ++ "boom".toList ∧
    AgentEvent.listedMessages ("thread-1".toList) ∉
      (callAgentSteps (mkEnv ("failed".toList) ("boom".toList) exampleMsgs)
        ("asst".toList) ("q".toList)).2 ∧
    List.countP isRanAgentEvent
      ((callAgentSteps (mkEnv ("failed".toList) ("boom".toList) exampleMsgs)
        ("asst".toList) ("q".toList)).2) = 1 := by
  have h := ((run_failed_short_circuits (mkEnv ("failed".toList) ("boom".toList) exampleMsgs)
    ("asst".toList) ("q".toList) ⟨"agent-1".toList⟩ ⟨"thread-1".toList⟩
    ⟨"failed".toList, "boom".toList⟩ rfl rfl rfl rfl).1 rfl)
  exact ⟨h.1, h.2.1 ("thread-1".toList), h.2.2⟩

/-- C2 counterexample: a run that terminates `cancelled` — a non-success
terminal status other than `failed` — does not short-circuit: the relay
proceeds to message collection and returns the assistant text, not an
error string. -/
theorem run_cancelled_not_short_circuited :
    call_agent (mkEnv ("cancelled".toList) ("detail".toList) exampleMsgs)
      ("asst".toList) ("q".toList) = "b\n\nc".toList ∧
    AgentEvent.listedMessages ("thread-1".toList) ∈
      (callAgentSteps (mkEnv ("cancelled".toList) ("detail".toList) exampleMsgs)
        ("asst".toList) ("q".toList)).2 := by
  constructor
  · decide
  · decide

/-- C4 (amended): the relay catches every exception at its boundary: for
every environment the result is either the `try`-body's value or, when some
step raised with detail `e`, exactly `"Error calling agent: " ++ e` — no
exception escapes (the relay is a total function into strings).  The
string is one line exactly when the detail is one line; see
`relay_error_string_multiline`. -/
theorem relay_catches_all_exceptions :
    ∀ (env : Env) (aid m : Str),
      (∃ s, (callAgentSteps env aid m).1 = Except.ok s ∧ call_agent env aid m = s) ∨
      (∃ e, (callAgentSteps env aid m).1 = Except.error e ∧
        call_agent env aid m = "Error calling agent: ".toList ++ e) := by
  intro env aid m
  rcases h : (callAgentSteps env aid m).1 with e | s
  · exact Or.inr ⟨e, rfl, by simp only [call_agent, h]⟩
  · exact Or.inl ⟨s, rfl, by simp only [call_agent, h]⟩

/-- C4 counterexample: an exception whose stringified detail spans two
lines produces a relay result that starts with `"Error calling agent: "`
but is not a single line. -/
theorem relay_error_string_multiline :
    call_agent (mkRaisingEnv ("network failure\nconnection reset".toList))
      ("asst".toList) ("q".toList) =
      "Error calling agent: network failure\nconnection reset".toList ∧
    '\n' ∈ call_agent (mkRaisingEnv ("network failure\nconnection reset".toList))
      ("asst".toList) ("q".toList) := by
  constructor
  · decide
  · decide

/-- C9 (amended): an invocation creates at most one thread — exactly one
as soon as agent resolution and thread creation succeed — posts the user
message to that same thread when message creation succeeds, and every
thread id appearing in later events is the one created by this very
invocation (threads are never reused; the relay performs no caching, being
a pure function of the environment and the message). -/
theorem relay_thread_per_invocation :
    ∀ (env : Env) (aid m : Str),
      List.countP isCreatedThreadEvent (callAgentSteps env aid m).2 ≤ 1 ∧
      (∀ (ag : Agent) (th : AgentThread),
        env.get_agent aid = Except.ok ag → env.threads_create = Except.ok th →
        List.countP isCreatedThreadEvent (callAgentSteps env aid m).2 = 1 ∧
        AgentEvent.createdThread th.id ∈ (callAgentSteps env aid m).2 ∧
        (env.messages_create th.id userRole m = Except.ok () →
          AgentEvent.createdMessage th.id userRole m ∈ (callAgentSteps env aid m).2)) ∧
      (∀ tid role content,
        AgentEvent.createdMessage tid role content ∈ (callAgentSteps env aid m).2 →
        AgentEvent.createdThread tid ∈ (callAgentSteps env aid m).2) ∧
      (∀ tid aid2, AgentEvent.ranAgent tid aid2 ∈ (callAgentSteps env aid m).2 →
        AgentEvent.createdThread tid ∈ (callAgentSteps env aid m).2) := by
  intro env aid m
  rcases hga : env.get_agent aid with e1 | ag
  · simp [callAgentSteps, hga, isCreatedThreadEvent]
  · rcases htc : env.threads_create with e2 | th
    · simp [callAgentSteps, hga, htc, isCreatedThreadEvent, List.countP_cons]
    · rcases hmc : env.messages_create th.id userRole m with e3 | u
      · simp [callAgentSteps, hga, htc, hmc, isCreatedThreadEvent, List.countP_cons]
      · rcases hrun : env.runs_create_and_process th.id ag.id with e4 | r
        · simp [callAgentSteps, hga, htc, hmc, hrun, isCreatedThreadEvent, List.countP_cons]
          exact fun tid role content htid _ _ => htid
        · by_cases hst : r.status = failedStatus
          · simp [callAgentSteps, hga, htc, hmc, hrun, hst, isCreatedThreadEvent,
              List.countP_cons]
            exact fun tid role content htid _ _ => htid
          · rcases hml : env.messages_list th.id SortOrder.ascending with e5 | msgs
            · simp [callAgentSteps, hga, htc, hmc, hrun, hst, hml, isCreatedThreadEvent,
                List.countP_cons]
              exact fun tid role content htid _ _ => htid
            · simp [callAgentSteps, hga, htc, hmc, hrun, hst, hml, isCreatedThreadEvent,
                List.countP_cons, collectAnswers_eq_ok, apply_ite, ite_self]
              exact fun tid role content htid _ _ => htid

/-- C9 witness: a successful invocation creates exactly one thread and
posts the user message to it. -/
theorem relay_thread_per_invocation_witness :
    List.countP isCreatedThreadEvent
      ((callAgentSteps (mkEnv ("completed".toList) [] exampleMsgs)
        ("asst".toList) ("q".toList)).2) = 1 ∧
    AgentEvent.createdThread ("thread-1".toList) ∈
      (callAgentSteps (mkEnv ("completed".toList) [] exampleMsgs)
        ("asst".toList) ("q".toList)).2 ∧
    AgentEvent.createdMessage ("thread-1".toList) userRole ("q".toList) ∈
      (callAgentSteps (mkEnv ("completed".toList) [] exampleMsgs)
        ("asst".toList) ("q".toList)).2 := by
  have h := (relay_thread_per_invocation (mkEnv ("completed".toList) [] exampleMsgs)
    ("asst".toList) ("q".toList)).2.1 ⟨"agent-1".toList⟩ ⟨"thread-1".toList⟩ rfl rfl
  exact ⟨h.1, h.2.1, h.2.2 rfl⟩

/-- C9 counterexample: when agent resolution raises, the invocation
creates no thread at all, refuting "exactly one thread per invocation". -/
theorem relay_raising_creates_no_thread :
    (callAgentSteps (mkRaisingEnv ("auth failure".toList))
      ("asst".toList) ("q".toList)).2 = [] ∧
    List.countP isCreatedThreadEvent
      ((callAgentSteps (mkRaisingEnv ("auth failure".toList))
        ("asst".toList) ("q".toList)).2) = 0 := by
  constructor
  · rfl
  · rfl

/-- C10: the reply-collection loop never raises — in particular the
`text_messages[-1]` indexing never fails — because the guard admits only
messages whose `text_messages` is present and non-empty. -/
theorem collect_loop_never_raises :
    ∀ msgs : List ThreadMessage, ∃ answers, collectAnswers msgs = Except.ok answers :=
  fun msgs => ⟨specSelectedTexts msgs, collectAnswers_eq_ok msgs⟩

/-! ### Claims about startup configuration -/

/-- C3 (amended): a required configuration value aborts startup exactly
when it is present in the environment but empty; when absent, the
hard-coded default is used and startup proceeds.  In particular: a
present-but-empty `PROJECT_ENDPOINT` always fails; a present-but-empty
`AGENT_ID` fails whatever `PROJECT_ENDPOINT` is (with the `AGENT_ID`
message whenever `PROJECT_ENDPOINT` resolves non-empty, i.e. is absent or
present non-empty); and with both absent startup succeeds on the
defaults. -/
theorem startup_defaults_and_empty_checks :
    ∀ environ : List (Str × Str),
      (List.lookup PROJECT_ENDPOINT_key environ = Option.none →
       List.lookup AGENT_ID_key environ = Option.none →
        startupCheck environ = Except.ok () ∧
        PROJECT_ENDPOINT environ = PROJECT_ENDPOINT_default ∧
        AGENT_ID environ = AGENT_ID_default) ∧
      (List.lookup PROJECT_ENDPOINT_key environ = some [] →
        startupCheck environ = Except.error ("PROJECT_ENDPOINT is not set.".toList)) ∧
      (List.lookup PROJECT_ENDPOINT_key environ = Option.none →
       List.lookup AGENT_ID_key environ = some [] →
        startupCheck environ = Except.error ("AGENT_ID is not set.".toList)) ∧
      (∀ v, List.lookup PROJECT_ENDPOINT_key environ = some v → v ≠ [] →
       List.lookup AGENT_ID_key environ = some [] →
        startupCheck environ = Except.error ("AGENT_ID is not set.".toList)) ∧
      (List.lookup AGENT_ID_key environ = some [] →
        ∃ e, startupCheck environ = Except.error e) := by
  intro environ
  refine ⟨?_, ?_, ?_, ?_, ?_⟩
  · intro h1 h2
    have hpe : PROJECT_ENDPOINT environ = PROJECT_ENDPOINT_default := by
      simp [PROJECT_ENDPOINT, os_environ_get, h1]
    have hai : AGENT_ID environ = AGENT_ID_default := by
      simp [AGENT_ID, os_environ_get, h2]
    refine ⟨?_, hpe, hai⟩
    rw [startupCheck, hpe, hai]
    rw [if_neg (by decide), if_neg (by decide)]
  · intro h1
    have hpe : PROJECT_ENDPOINT environ = [] := by
      simp [PROJECT_ENDPOINT, os_environ_get, h1]
    rw [startupCheck, hpe]
    rw [if_pos rfl]
  · intro h1 h2
    have hpe : PROJECT_ENDPOINT environ = PROJECT_ENDPOINT_default := by
      simp [PROJECT_ENDPOINT, os_environ_get, h1]
    have hai : AGENT_ID environ = [] := by
      simp [AGENT_ID, os_environ_get, h2]
    rw [startupCheck, hpe, hai]
    rw [if_neg (by decide), if_pos rfl]
  · intro v hv hvne h2
    have hpe : PROJECT_ENDPOINT environ = v := by
      simp [PROJECT_ENDPOINT, os_environ_get, hv]
    have hai : AGENT_ID environ = [] := by
      simp [AGENT_ID, os_environ_get, h2]
    rw [startupCheck, hpe, hai]
    rw [if_neg hvne, if_pos rfl]
  · intro h2
    have hai : AGENT_ID environ = [] := by
      simp [AGENT_ID, os_environ_get, h2]
    rcases hv : List.lookup PROJECT_ENDPOINT_key environ with _ | v
    · have hpe : PROJECT_ENDPOINT environ = PROJECT_ENDPOINT_default := by
        simp [PROJECT_ENDPOINT, os_environ_get, hv]
      refine ⟨"AGENT_ID is not set.".toList, ?_⟩
      rw [startupCheck, hpe, hai]
      rw [if_neg (by decide), if_pos rfl]
    · have hpe : PROJECT_ENDPOINT environ = v := by
        simp [PROJECT_ENDPOINT, os_environ_get, hv]
      by_cases hvne : v = []
      · refine ⟨"PROJECT_ENDPOINT is not set.".toList, ?_⟩
        rw [startupCheck, hpe, hvne]
        rw [if_pos rfl]
      · refine ⟨"AGENT_ID is not set.".toList, ?_⟩
        rw [startupCheck, hpe, hai]
        rw [if_neg hvne, if_pos rfl]

/-- C3 witness: an empty `AGENT_ID` aborts startup both when
`PROJECT_ENDPOINT` is set non-empty and when it is absent. -/
theorem startup_defaults_and_empty_checks_witness :
    startupCheck [(PROJECT_ENDPOINT_key, "https://example.invalid".toList),
        (AGENT_ID_key, [])] =
      Except.error ("AGENT_ID is not set.".toList) ∧
    startupCheck [(AGENT_ID_key, [])] =
      Except.error ("AGENT_ID is not set.".toList) :=
  ⟨(startup_defaults_and_empty_checks
      [(PROJECT_ENDPOINT_key, "https://example.invalid".toList),
       (AGENT_ID_key, [])]).2.2.2.1
      ("https://example.invalid".toList) rfl (by decide) rfl,
   (startup_defaults_and_empty_checks [(AGENT_ID_key, [])]).2.2.1 rfl rfl⟩

/-- C3 counterexample: with both variables absent from the environment,
startup succeeds (the hard-coded defaults are used), refuting "startup
fails if absent". -/
theorem startup_succeeds_with_absent_env :
    startupCheck [] = Except.ok () ∧
    List.lookup PROJECT_ENDPOINT_key ([] : List (Str × Str)) = Option.none ∧
    List.lookup AGENT_ID_key ([] : List (Str × Str)) = Option.none := by
  refine ⟨?_, rfl, rfl⟩
  rfl

/-! ### Claims about renderer totality -/

/-- C8 (amended): on string-or-`None` inputs the renderer is a total pure
function — `None` (falsy) inputs are coerced to the empty string — but a
truthy non-string input raises an `AttributeError` instead of being
coerced (see `renderDyn_raises_on_int`). -/
theorem renderDyn_total_on_str_or_none :
    ∀ m a : PyVal, pyStrOrNone m → pyStrOrNone a →
      renderDyn m a = Except.ok (render (pyToStr m) (pyToStr a)) := by
  intro m a hm ha
  rcases hm with rfl | ⟨s, rfl⟩
  · rcases ha with rfl | ⟨t, rfl⟩
    · rfl
    · cases t with
      | nil => rfl
      | cons c cs => rfl
  · rcases ha with rfl | ⟨t, rfl⟩
    · cases s with
      | nil => rfl
      | cons c cs => rfl
    · cases s with
      | nil =>
        cases t with
        | nil => rfl
        | cons d ds => rfl
      | cons c cs =>
        cases t with
        | nil => rfl
        | cons d ds => rfl

/-- C8 witness: a string message with a `None` answer renders exactly as
the pure renderer does on the coerced strings. -/
theorem renderDyn_total_on_str_or_none_witness :
    renderDyn (PyVal.str ("hi".toList)) PyVal.none =
      Except.ok (render ("hi".toList) []) :=
  renderDyn_total_on_str_or_none (PyVal.str ("hi".toList)) PyVal.none
    (Or.inr ⟨_, rfl⟩) (Or.inl rfl)

/-- C8 counterexample: a truthy non-string input (the integer `123`)
makes the renderer raise an `AttributeError` instead of being coerced to
the empty string. -/
theorem renderDyn_raises_on_int :
    renderDyn (PyVal.int 123) (PyVal.str []) = Except.error attributeErrorMsg := rfl
